import Mathlib

/-!
Verification of `create_icons.py`, a script that renders square icons:
a solid blue background, the white glyph "한" centered via its text
bounding box, a darker-blue rectangular border drawn inward from the
image edges, and a save to a PNG file.

The shallow embedding models the Pillow calls the script makes:
`Image.new`, `draw.textbbox`, `draw.text`, `draw.rectangle`,
`ImageFont.truetype` / `ImageFont.load_default`, and `img.save`.
A raster image is a record of mode, dimensions and a pixel function;
a font is its text bounding box for the fixed glyph plus an ink mask;
the filesystem is a partial map from paths to saved images.  Fallible
library calls return `Except PyErr` / `Option PyErr`; the bare
`except:` clauses of the script are total matches on the error case.
-/

/-- An RGB color triple, as Pillow's 3-channel `'RGB'` mode pixels. -/
structure Color where
  r : Nat
  g : Nat
  b : Nat
deriving DecidableEq

/-- `bg_color = (33, 150, 243)` from line 6 of the script. -/
def bg_color : Color := ⟨33, 150, 243⟩

/-- The border outline color `(25, 118, 210)` from line 43. -/
def border_color : Color := ⟨25, 118, 210⟩

/-- Pillow's named color `'white'` used as the text fill (line 37). -/
def white : Color := ⟨255, 255, 255⟩

/-- The fixed glyph rendered on every icon (line 13 of the script). -/
def text : String := "한"

/-- A raster image: Pillow mode string, dimensions, and a pixel map.
`pix x y` is meaningful for `x < width` and `y < height`; drawing
primitives only ever set pixels inside the image, so ink that falls at
negative or too-large coordinates is clipped away by construction. -/
structure Img where
  mode : String
  width : Nat
  height : Nat
  pix : Nat → Nat → Color

/-- `Image.new(mode, (w, h), color)`: an image filled with one color. -/
def image_new (mode : String) (w h : Nat) (c : Color) : Img :=
  ⟨mode, w, h, fun _ _ => c⟩

/-- A text bounding box as returned by `draw.textbbox((0, 0), text, font)`:
`(x0, y0, x1, y1)` are the ink extents relative to the text origin. -/
structure Bbox where
  x0 : Int
  y0 : Int
  x1 : Int
  y1 : Int
deriving DecidableEq

/-- A loaded font, abstracted to what the script observes of it: the
bounding box `textbbox` reports for the glyph "한", and the ink mask of
that glyph relative to the text origin. -/
structure Font where
  bbox : Bbox
  mask : Int → Int → Bool

/-- Errors a Pillow / filesystem call may raise. The script's bare
`except:` clauses catch every one of these indiscriminately. -/
inductive PyErr where
  | fileNotFound : String → PyErr
  | corruptFont : String → PyErr
  | ioError : String → PyErr
deriving DecidableEq

/-- The first font path tried, line 20 of the script. -/
def cjk_font_path : String :=
  "/usr/share/fonts/truetype/noto/NotoSansCJK-Regular.ttc"

/-- The second font path tried, line 23 of the script. -/
def dejavu_font_path : String :=
  "/usr/share/fonts/truetype/dejavu/DejaVuSans.ttf"

/-- The ambient library/filesystem behavior the script runs against:
what `ImageFont.truetype(path, size)` returns (or raises) for each
path and size, the font `ImageFont.load_default()` returns (it never
fails), and whether `img.save(filename)` raises for each path. -/
structure Env where
  truetype : String → Nat → Except PyErr Font
  default_font : Font
  save_err : String → Option PyErr

/-- The saved-file store: which image each path currently holds. -/
def Store : Type := String → Option Img

/-- An empty store: no file exists yet. -/
def store0 : Store := fun _ => none

/-- `font_size = int(size * 0.6)` (line 16). Embedded as exact integer
arithmetic `size * 6 / 10`; for every size below `2^50` the Python
double-precision expression `int(size * 0.6)` evaluates to the same
value, since `0.6`'s representation error is far below the rounding
granularity at these magnitudes. -/
def font_size_of (size : Nat) : Nat := size * 6 / 10

/-- Lines 18-26: `try: truetype(cjk) except: try: truetype(dejavu)
except: load_default()`. Both `truetype` attempts receive the same
size `fs`; each bare `except:` catches any error whatsoever; the
default font ignores `fs` entirely. -/
def resolveFont (env : Env) (fs : Nat) : Font :=
  match env.truetype cjk_font_path fs with
  | .ok f => f
  | .error _ =>
    match env.truetype dejavu_font_path fs with
    | .ok f => f
    | .error _ => env.default_font

/-- Lines 29-34: from `bbox = draw.textbbox((0,0), text, font)`,
`x = (size - text_width) // 2` and
`y = (size - text_height) // 2 - bbox[1]`, with Python's floor
division `//` embedded as `Int.fdiv`. -/
def text_origin (size : Nat) (b : Bbox) : Int × Int :=
  (Int.fdiv ((size : Int) - (b.x1 - b.x0)) 2,
   Int.fdiv ((size : Int) - (b.y1 - b.y0)) 2 - b.y0)

/-- `draw.text(xy, text, fill, font)` (line 37): paint `fill` at every
in-image pixel the glyph mask inks, relative to the origin `xy`. -/
def draw_text (img : Img) (xy : Int × Int) (mask : Int → Int → Bool)
    (fill : Color) : Img :=
  { img with pix := fun x y =>
      if mask ((x : Int) - xy.1) ((y : Int) - xy.2) then fill
      else img.pix x y }

/-- `border_width = max(1, size // 32)` (line 40). -/
def border_width (size : Nat) : Nat := max 1 (size / 32)

/-- `draw.rectangle([(x0,y0),(x1,y1)], outline, width)` (lines 41-45):
Pillow paints the outline `width` pixels thick, extending inward from
the rectangle's edges, never outside the rectangle itself. -/
def draw_rectangle (img : Img) (x0 y0 x1 y1 : Nat) (outline : Color)
    (w : Nat) : Img :=
  { img with pix := fun x y =>
      if (x0 ≤ x ∧ x ≤ x1 ∧ y0 ≤ y ∧ y ≤ y1) ∧
         (x < x0 + w ∨ y < y0 + w ∨ x1 < x + w ∨ y1 < y + w) then outline
      else img.pix x y }

/-- Whether `(x, y)` is on the border band that line 41's call
`draw.rectangle([(0,0),(size-1,size-1)], outline, width=w)` paints:
inside the rectangle, and within `w` pixels of one of its edges. -/
def rect_outline_px (S w x y : Nat) : Prop :=
  (0 ≤ x ∧ x ≤ S - 1 ∧ 0 ≤ y ∧ y ≤ S - 1) ∧
  (x < 0 + w ∨ y < 0 + w ∨ S - 1 < x + w ∨ S - 1 < y + w)

instance (S w x y : Nat) : Decidable (rect_outline_px S w x y) := by
  unfold rect_outline_px; infer_instance

/-- The in-memory image `create_icon` builds before saving, lines 9-45
of the script: background fill, centered glyph, then the border drawn
over everything. -/
def rendered_image (font : Font) (size : Nat) : Img :=
  let img := image_new "RGB" size size bg_color
  let img := draw_text img (text_origin size font.bbox) font.mask white
  draw_rectangle img 0 0 (size - 1) (size - 1) border_color
    (border_width size)

/-- The store after `img.save(filename)` succeeds: the rendered image
now sits at `filename`, replacing whatever was there; other paths are
untouched. -/
def store_after (env : Env) (st : Store) (size : Nat)
    (filename : String) : Store :=
  fun g =>
    if g = filename then
      some (rendered_image (resolveFont env (font_size_of size)) size)
    else st g

/-- `create_icon(size, filename)` (lines 4-49): resolve a font through
the fallback chain, render the icon, save it. Font-loading failures
are swallowed by the bare `except:` clauses inside `resolveFont`; the
only failure that can escape is the save itself. -/
def create_icon (env : Env) (st : Store) (size : Nat)
    (filename : String) : Except PyErr Store :=
  match env.save_err filename with
  | some e => Except.error e
  | none => Except.ok (store_after env st size filename)

/-- Twice the x-coordinate of the visual center of the glyph's
rendered bounding box once the text is drawn at `text_origin`:
the box spans `[ox + x0, ox + x1]` horizontally. -/
def box_center2_x (S : Nat) (b : Bbox) : Int :=
  2 * (text_origin S b).1 + b.x0 + b.x1

/-- Twice the y-coordinate of the visual center of the glyph's
rendered bounding box once drawn at `text_origin`. -/
def box_center2_y (S : Nat) (b : Bbox) : Int :=
  2 * (text_origin S b).2 + b.y0 + b.y1

/-- The glyph box's visual center coincides with the image center
`S / 2` within one pixel, on both axes (stated in doubled units to
stay in integers). -/
def centered_within_one_pixel (S : Nat) (b : Bbox) : Prop :=
  |box_center2_x S b - (S : Int)| ≤ 2 ∧ |box_center2_y S b - (S : Int)| ≤ 2

instance (S : Nat) (b : Bbox) : Decidable (centered_within_one_pixel S b) := by
  unfold centered_within_one_pixel; infer_instance

/-- A concrete font for witnesses: bbox `(0, 2, 9, 12)`, empty mask. -/
def font0 : Font := ⟨⟨0, 2, 9, 12⟩, fun _ _ => false⟩

/-- An environment in which both truetype font files are missing and
saving succeeds everywhere. -/
def env_all_fail : Env :=
  ⟨fun p _ => Except.error (PyErr.fileNotFound p), font0, fun _ => none⟩

/-- An environment in which the CJK font file exists but is corrupt
(loading it raises), the DejaVu font loads fine, and saving works. -/
def env_corrupt : Env :=
  ⟨fun p _ =>
      if p = cjk_font_path then Except.error (PyErr.corruptFont p)
      else Except.ok font0,
   font0, fun _ => none⟩

/-- An environment in which every save raises an I/O error. -/
def env_save_fail : Env :=
  ⟨fun _ _ => Except.ok font0, font0,
   fun p => some (PyErr.ioError p)⟩

/-! ## Helper lemmas -/

/-- Floor division by two: characterization usable by `omega`. -/
lemma fdiv_two_spec (n : Int) :
    2 * Int.fdiv n 2 ≤ n ∧ n < 2 * Int.fdiv n 2 + 2 := by
  rw [Int.fdiv_eq_ediv n (by omega : (0 : Int) ≤ 2)]
  omega

/-- The pixel function of the fully rendered icon, in closed form. -/
lemma rendered_image_pix (font : Font) (S x y : Nat) :
    (rendered_image font S).pix x y =
      if rect_outline_px S (border_width S) x y then border_color
      else if font.mask ((x : Int) - (text_origin S font.bbox).1)
             ((y : Int) - (text_origin S font.bbox).2) then white
      else bg_color := rfl

/-- The rendered icon keeps the mode and dimensions of `Image.new`. -/
lemma rendered_image_shape (font : Font) (S : Nat) :
    (rendered_image font S).mode = "RGB" ∧
    (rendered_image font S).width = S ∧
    (rendered_image font S).height = S :=
  ⟨rfl, rfl, rfl⟩

/-- Inversion of a successful `create_icon` run. -/
lemma create_icon_ok_inv (env : Env) (st : Store) (S : Nat) (f : String)
    (r : Store) (h : create_icon env st S f = Except.ok r) :
    env.save_err f = none ∧ r = store_after env st S f := by
  cases he : env.save_err f with
  | some e => simp [create_icon, he] at h
  | none =>
    simp [create_icon, he] at h
    exact ⟨rfl, h.symm⟩

/-! ## Claim theorems -/

/-- C1: for every size `S > 0`, the drawn border has stroke width
exactly `border_width S = max 1 (S / 32)` on all four edges: every
in-bounds pixel within that band of an edge is border-colored, and
every in-bounds pixel outside the band is not border-colored (it is
the white glyph or the blue background); in particular the width is 1
at size 16 and 4 at size 128. -/
theorem create_icon_border_stroke (font : Font) (S : Nat) (hS : 0 < S)
    (x y : Nat) (hx : x < S) (hy : y < S) :
    (rect_outline_px S (border_width S) x y →
      (rendered_image font S).pix x y = border_color) ∧
    (¬ rect_outline_px S (border_width S) x y →
      (rendered_image font S).pix x y ≠ border_color) ∧
    border_width S = max 1 (S / 32) ∧
    border_width 16 = 1 ∧ border_width 128 = 4 := by
  refine ⟨?_, ?_, rfl, rfl, rfl⟩
  · intro h
    rw [rendered_image_pix]
    simp [h]
  · intro h
    rw [rendered_image_pix]
    simp only [h, if_false]
    split
    · decide
    · decide

/-- C1 witness at `S = 16`: the corner pixel is border-colored and an
interior pixel is not. -/
theorem create_icon_border_stroke_w :
    (rendered_image font0 16).pix 0 5 = border_color ∧
    (rendered_image font0 16).pix 5 5 ≠ border_color :=
  ⟨(create_icon_border_stroke font0 16 (by decide) 0 5 (by decide)
      (by decide)).1 (by decide),
   (create_icon_border_stroke font0 16 (by decide) 5 5 (by decide)
      (by decide)).2.1 (by decide)⟩

/-- C2: a successful `create_icon env st S f` stores at `f` the
rendered image, which is square of side `S`, in 3-channel RGB mode
with no alpha, and whose initial buffer (`Image.new`, before any
drawing) is filled everywhere with the background color
`(33, 150, 243)`. -/
theorem create_icon_square_rgb (env : Env) (st : Store) (S : Nat)
    (hS : 0 < S) (f : String) (st' : Store)
    (h : create_icon env st S f = Except.ok st') :
    st' f = some (rendered_image (resolveFont env (font_size_of S)) S) ∧
    (∀ font, (rendered_image font S).width = S ∧
      (rendered_image font S).height = S ∧
      (rendered_image font S).mode = "RGB") ∧
    (∀ x y, (image_new "RGB" S S bg_color).pix x y = bg_color) := by
  obtain ⟨-, hr⟩ := create_icon_ok_inv env st S f st' h
  subst hr
  refine ⟨?_, fun font => ⟨rfl, rfl, rfl⟩, fun x y => rfl⟩
  simp [store_after]

/-- C2 witness at `S = 16`. -/
theorem create_icon_square_rgb_w :
    (store_after env_all_fail store0 16 "icon16.png") "icon16.png" =
      some (rendered_image (resolveFont env_all_fail (font_size_of 16)) 16) ∧
    (rendered_image font0 16).width = 16 :=
  ⟨(create_icon_square_rgb env_all_fail store0 16 (by decide) "icon16.png"
      _ rfl).1,
   ((create_icon_square_rgb env_all_fail store0 16 (by decide) "icon16.png"
      _ rfl).2.1 font0).1⟩

/-- C3: font resolution is an ordered fallback chain: if the CJK
truetype load succeeds its font is used outright; the DejaVu load is
consulted only after the CJK load failed; the built-in default font is
used exactly when both truetype loads failed, and it is always
available (an `Env` field, not a fallible call). -/
theorem font_fallback_chain (env : Env) (fs : Nat) :
    (∀ f, env.truetype cjk_font_path fs = Except.ok f →
      resolveFont env fs = f) ∧
    (∀ e f, env.truetype cjk_font_path fs = Except.error e →
      env.truetype dejavu_font_path fs = Except.ok f →
      resolveFont env fs = f) ∧
    (∀ e e', env.truetype cjk_font_path fs = Except.error e →
      env.truetype dejavu_font_path fs = Except.error e' →
      resolveFont env fs = env.default_font) := by
  refine ⟨?_, ?_, ?_⟩ <;> intros <;> simp_all [resolveFont]

/-- C3 witness: with both font files missing, resolution lands on the
built-in default font. -/
theorem font_fallback_chain_w :
    resolveFont env_all_fail 9 = env_all_fail.default_font :=
  (font_fallback_chain env_all_fail 9).2.2
    (PyErr.fileNotFound cjk_font_path)
    (PyErr.fileNotFound dejavu_font_path) rfl rfl

/-- C4 counterexample: a corrupt CJK font file makes the first
`ImageFont.truetype` call raise, yet `create_icon` does NOT propagate
the error and terminate — the bare `except:` catches it, resolution
falls through to the DejaVu font, and the call completes successfully.
This refutes the claim that a corrupt font file encountered during
font loading propagates uncaught. -/
theorem corrupt_font_recovered_cex :
    env_corrupt.truetype cjk_font_path (font_size_of 16) =
      Except.error (PyErr.corruptFont cjk_font_path) ∧
    create_icon env_corrupt store0 16 "icon16.png" =
      Except.ok (store_after env_corrupt store0 16 "icon16.png") ∧
    resolveFont env_corrupt (font_size_of 16) = font0 := by
  refine ⟨?_, rfl, ?_⟩ <;> simp [env_corrupt, resolveFont, cjk_font_path,
    dejavu_font_path]

/-- C4 (amended): every failure raised inside the two truetype
font-loading attempts — a corrupt font file included — is silently
caught by the bare `except:` clauses and recovered via the fallback
chain, so the outcome of `create_icon` never depends on font-loading
errors; a failure of the save, by contrast, propagates uncaught as the
result of the call. -/
theorem font_load_errors_swallowed (env : Env) (st : Store) (S : Nat)
    (f : String) :
    (env.save_err f = none →
      create_icon env st S f = Except.ok (store_after env st S f)) ∧
    (∀ e, env.save_err f = some e →
      create_icon env st S f = Except.error e) := by
  constructor
  · intro hs
    simp [create_icon, hs]
  · intro e hs
    simp [create_icon, hs]

/-- C4 witness: under a corrupt CJK font the call succeeds; under a
failing save it returns exactly the save's error. -/
theorem font_load_errors_swallowed_w :
    create_icon env_corrupt store0 128 "icon128.png" =
      Except.ok (store_after env_corrupt store0 128 "icon128.png") ∧
    create_icon env_save_fail store0 128 "icon128.png" =
      Except.error (PyErr.ioError "icon128.png") :=
  ⟨(font_load_errors_swallowed env_corrupt store0 128 "icon128.png").1 rfl,
   (font_load_errors_swallowed env_save_fail store0 128 "icon128.png").2
     (PyErr.ioError "icon128.png") rfl⟩

/-- C5 counterexample: with a font whose text bounding box for the
glyph has left offset `bbox[0] = 4` (box `(4, 0, 10, 6)`), at size 16
the code's origin `x = (16 - 6) // 2 = 5` puts the box at `[9, 15]`,
whose visual center 12 is 4 pixels right of the image center 8 — not
within one pixel.  The code compensates for `bbox[1]` vertically but
never for `bbox[0]` horizontally. -/
theorem glyph_centering_cex :
    ¬ centered_within_one_pixel 16 ⟨4, 0, 10, 6⟩ := by decide

/-- C5 (amended): the vertical visual center of the glyph's rendered
box always coincides with the image center within one pixel (the code
subtracts `bbox[1]`); the horizontal visual center sits at the image
center shifted by `bbox[0]` (within one pixel), since the code uses
only the box width and never compensates for the left offset — so
horizontal centering within one pixel holds in particular whenever
`bbox[0]` is zero. -/
theorem glyph_centering (S : Nat) (b : Bbox) :
    |box_center2_y S b - (S : Int)| ≤ 1 ∧
    |box_center2_x S b - ((S : Int) + 2 * b.x0)| ≤ 1 ∧
    (b.x0 = 0 → |box_center2_x S b - (S : Int)| ≤ 1) := by
  have h1 := fdiv_two_spec ((S : Int) - (b.x1 - b.x0))
  have h2 := fdiv_two_spec ((S : Int) - (b.y1 - b.y0))
  simp only [box_center2_x, box_center2_y, text_origin, abs_le]
  refine ⟨by omega, by omega, fun hx0 => by omega⟩

/-- C5 witness: a zero-left-offset box `(0, 2, 9, 12)` at size 16 is
centered within one pixel on both axes. -/
theorem glyph_centering_w :
    |box_center2_y 16 ⟨0, 2, 9, 12⟩ - (16 : Int)| ≤ 1 ∧
    |box_center2_x 16 ⟨0, 2, 9, 12⟩ - (16 : Int)| ≤ 1 :=
  ⟨(glyph_centering 16 ⟨0, 2, 9, 12⟩).1,
   (glyph_centering 16 ⟨0, 2, 9, 12⟩).2.2 rfl⟩

/-- C6: when both preferred font files are unavailable (every truetype
load fails), `create_icon` still completes successfully, the output
file is written, and the image it stores is rendered with the built-in
default font. -/
theorem fallback_font_success (env : Env) (st : Store) (S : Nat)
    (f : String)
    (h1 : ∀ fs, ∃ e, env.truetype cjk_font_path fs = Except.error e)
    (h2 : ∀ fs, ∃ e, env.truetype dejavu_font_path fs = Except.error e)
    (hs : env.save_err f = none) :
    create_icon env st S f = Except.ok (store_after env st S f) ∧
    (store_after env st S f) f =
      some (rendered_image env.default_font S) := by
  obtain ⟨e1, he1⟩ := h1 (font_size_of S)
  obtain ⟨e2, he2⟩ := h2 (font_size_of S)
  constructor
  · simp [create_icon, hs]
  · simp [store_after, resolveFont, he1, he2]

/-- C6 witness: with every font file missing, the size-48 icon is
still created and stored. -/
theorem fallback_font_success_w :
    create_icon env_all_fail store0 48 "icon48.png" =
      Except.ok (store_after env_all_fail store0 48 "icon48.png") ∧
    (store_after env_all_fail store0 48 "icon48.png") "icon48.png" =
      some (rendered_image env_all_fail.default_font 48) :=
  fallback_font_success env_all_fail store0 48 "icon48.png"
    (fun _ => ⟨PyErr.fileNotFound cjk_font_path, rfl⟩)
    (fun _ => ⟨PyErr.fileNotFound dejavu_font_path, rfl⟩) rfl

/-- C7: the font size handed to both truetype attempts is the same
single value `font_size_of S = ⌊0.6 · S⌋` (characterized by the two
inequalities); the outcome of `create_icon` depends on the truetype
loader only through its answers at exactly the two points
`(cjk path, font_size_of S)` and `(dejavu path, font_size_of S)`; and
when both attempts fail the resolved font is `env.default_font` for
every requested size `fs` — the built-in fallback ignores the size
entirely. -/
theorem font_size_sixty_percent (S : Nat) (env env' : Env) (st : Store)
    (f : String) :
    font_size_of S = S * 6 / 10 ∧
    10 * font_size_of S ≤ 6 * S ∧ 6 * S < 10 * font_size_of S + 10 ∧
    (env.truetype cjk_font_path (font_size_of S) =
        env'.truetype cjk_font_path (font_size_of S) →
      env.truetype dejavu_font_path (font_size_of S) =
        env'.truetype dejavu_font_path (font_size_of S) →
      env.default_font = env'.default_font →
      env.save_err = env'.save_err →
      create_icon env st S f = create_icon env' st S f) ∧
    (∀ fs e e', env.truetype cjk_font_path fs = Except.error e →
      env.truetype dejavu_font_path fs = Except.error e' →
      resolveFont env fs = env.default_font) := by
  refine ⟨rfl, by unfold font_size_of; omega, by unfold font_size_of; omega,
    ?_, ?_⟩
  · intro hc hd hdef hsave
    unfold create_icon store_after resolveFont
    rw [hsave, hc, hd, hdef]
  · intro fs e e' he1 he2
    simp [resolveFont, he1, he2]

/-- C7 witness: with both loads failing, the default font is resolved
at the concrete size 5 (and would be at any size). -/
theorem font_size_sixty_percent_w :
    resolveFont env_all_fail 5 = env_all_fail.default_font :=
  (font_size_sixty_percent 5 env_all_fail env_all_fail store0
    "f").2.2.2.2 5 (PyErr.fileNotFound cjk_font_path)
    (PyErr.fileNotFound dejavu_font_path) rfl rfl

/-- C8: the border band of `create_icon`'s rectangle call — corners
`(0,0)` and `(S-1, S-1)` — lies fully inside the image: every pixel it
paints satisfies `x < S` and `y < S` (and is indeed painted
border-colored in the rendered image), and for `S > 0` the band
reaches but never crosses all four image edges: every pixel on row 0,
column 0, row `S-1` and column `S-1` belongs to it. -/
theorem border_fully_inside (font : Font) (S x y : Nat) (hS : 0 < S) :
    (rect_outline_px S (border_width S) x y →
      x < S ∧ y < S ∧ (rendered_image font S).pix x y = border_color) ∧
    (x < S → rect_outline_px S (border_width S) x 0 ∧
      rect_outline_px S (border_width S) 0 x ∧
      rect_outline_px S (border_width S) x (S - 1) ∧
      rect_outline_px S (border_width S) (S - 1) x) := by
  have hw : 1 ≤ border_width S := le_max_left _ _
  constructor
  · intro h
    have hb : x < S ∧ y < S := by
      obtain ⟨⟨_, hx1, _, hy1⟩, _⟩ := h
      omega
    exact ⟨hb.1, hb.2, by rw [rendered_image_pix]; simp [h]⟩
  · intro hx
    refine ⟨?_, ?_, ?_, ?_⟩ <;> unfold rect_outline_px <;> omega

/-- C8 witness at `S = 16`: an edge pixel is in-bounds and painted;
the whole of row 0 up to column 15 is in the band. -/
theorem border_fully_inside_w :
    (3 < 16 ∧ 0 < 16 ∧ (rendered_image font0 16).pix 3 0 = border_color) ∧
    rect_outline_px 16 (border_width 16) 15 0 :=
  ⟨(border_fully_inside font0 16 3 0 (by decide)).1 (by decide),
   ((border_fully_inside font0 16 15 0 (by decide)).2 (by decide)).1⟩

/-- C9: rendering is deterministic and overwrites: two successful runs
with the same size and filename, against environments that resolve to
the same font, store the identical image at the filename — whatever
either store previously held there — namely the rendered image of the
resolved font. -/
theorem deterministic_overwrite (env env' : Env) (st st' : Store)
    (S : Nat) (f : String) (r r' : Store)
    (hfont : resolveFont env (font_size_of S) =
      resolveFont env' (font_size_of S))
    (h : create_icon env st S f = Except.ok r)
    (h' : create_icon env' st' S f = Except.ok r') :
    r f = r' f ∧
    r f = some (rendered_image (resolveFont env (font_size_of S)) S) := by
  obtain ⟨-, hr⟩ := create_icon_ok_inv env st S f r h
  obtain ⟨-, hr'⟩ := create_icon_ok_inv env' st' S f r' h'
  subst hr hr'
  constructor
  · simp [store_after, hfont]
  · simp [store_after]

/-- A store that already holds a stale file at `"a.png"`, to exhibit
the overwrite in the C9 witness. -/
def store_old : Store :=
  fun g => if g = "a.png" then some (image_new "RGB" 1 1 white) else none

/-- C9 witness: a run from the empty store and a run from a store that
already held `"a.png"` end with the same image stored there. -/
theorem deterministic_overwrite_w :
    (store_after env_all_fail store0 16 "a.png") "a.png" =
      (store_after env_all_fail store_old 16 "a.png") "a.png" :=
  (deterministic_overwrite env_all_fail env_all_fail store0 store_old 16
    "a.png" (store_after env_all_fail store0 16 "a.png")
    (store_after env_all_fail store_old 16 "a.png") rfl rfl rfl).1

/-- C10: no guard relates glyph size to icon size.  If the resolved
box is wider than `S`, the computed x-origin is negative and the box
sticks out of `[0, S]` horizontally; if taller than `S`, the box's top
edge is above the image (and, whenever `bbox[1] ≥ 0` as `textbbox`
reports for real fonts, the y-origin itself is negative); out-of-image
ink is clipped — the pixel map's domain is the `S × S` grid, whose
dimensions stay `S` — yet the call still succeeds and writes the
file. -/
theorem glyph_overflow_no_guard (S : Nat) (b : Bbox) (env : Env)
    (st : Store) (f : String) (hs : env.save_err f = none) :
    ((S : Int) < b.x1 - b.x0 →
      (text_origin S b).1 < 0 ∧
      ((text_origin S b).1 + b.x0 < 0 ∨
        (S : Int) < (text_origin S b).1 + b.x1)) ∧
    ((S : Int) < b.y1 - b.y0 → (text_origin S b).2 + b.y0 < 0) ∧
    ((S : Int) < b.y1 - b.y0 → 0 ≤ b.y0 → (text_origin S b).2 < 0) ∧
    create_icon env st S f = Except.ok (store_after env st S f) ∧
    (∀ font, (rendered_image font S).width = S ∧
      (rendered_image font S).height = S) := by
  have h1 := fdiv_two_spec ((S : Int) - (b.x1 - b.x0))
  have h2 := fdiv_two_spec ((S : Int) - (b.y1 - b.y0))
  simp only [text_origin]
  refine ⟨fun hw => ⟨by omega, by omega⟩, fun hh => by omega,
    fun hh hy0 => by omega, by simp [create_icon, hs],
    fun font => ⟨rfl, rfl⟩⟩

/-- C10 witness: the box `(0, 2, 9, 12)` (9 wide, 10 tall) on a size-3
icon gives negative origins on both axes, yet the icon is created. -/
theorem glyph_overflow_no_guard_w :
    (text_origin 3 ⟨0, 2, 9, 12⟩).1 < 0 ∧
    (text_origin 3 ⟨0, 2, 9, 12⟩).2 < 0 ∧
    create_icon env_all_fail store0 3 "s.png" =
      Except.ok (store_after env_all_fail store0 3 "s.png") :=
  ⟨((glyph_overflow_no_guard 3 ⟨0, 2, 9, 12⟩ env_all_fail store0 "s.png"
      rfl).1 (by decide)).1,
   (glyph_overflow_no_guard 3 ⟨0, 2, 9, 12⟩ env_all_fail store0 "s.png"
      rfl).2.2.1 (by decide) (by decide),
   (glyph_overflow_no_guard 3 ⟨0, 2, 9, 12⟩ env_all_fail store0 "s.png"
      rfl).2.2.2.1⟩
